import Mathlib

/-!
Verification of the data-loading routine `load_data_from_library` from
`data_loaders.py`.

The embedding models:
  * the filesystem as a finite association list from path strings to
    entries (regular file with textual content, or directory);
  * `os.path.join` with its documented semantics on absolute second
    components;
  * the fixed list of three candidate paths and the first-match scan loop,
    instrumented with a trace of filesystem operations (existence checks
    and reads) so that invariants about which paths are touched can be
    stated;
  * `pandas.read_csv(path, index_col = c, parse_dates = True)` from the
    documented pandas behaviour: comma-separated lines with a header row,
    the named column becomes the row index, the index values are parsed as
    timestamps, and when not every index value parses as a timestamp the
    whole index is kept as the raw strings (pandas returns the column
    unaltered in that case rather than raising).  Cell values are kept in
    their textual form.  Date parsing is modelled for ISO dates
    (YYYY-MM-DD), the format used throughout the repository.
The Python function returns `None` on failure and never raises to the
caller; the embedding is a total function returning `Option DataFrame`
together with the emitted diagnostic lines and the filesystem-operation
trace.
-/

/-- Calendar date, the model of a parsed timestamp. -/
structure Date where
  year : Nat
  month : Nat
  day : Nat
deriving DecidableEq, Repr

/-- Number of days in a month, with leap years. -/
def daysInMonth (y m : Nat) : Nat :=
  if m = 2 then (if (y % 4 = 0 ∧ y % 100 ≠ 0) ∨ y % 400 = 0 then 29 else 28)
  else if m = 4 ∨ m = 6 ∨ m = 9 ∨ m = 11 then 30
  else 31

/-- Split a character list on a separator character, the model of
splitting a string on a one-character separator (as in the Python
`str.split`): the empty input yields one empty chunk, and each separator
occurrence starts a new chunk. -/
def splitOnChar (sep : Char) : List Char → List (List Char)
  | [] => [[]]
  | c :: rest =>
    let r := splitOnChar sep rest
    if c == sep then [] :: r
    else
      match r with
      | [] => [[c]]
      | g :: gs => (c :: g) :: gs

/-- Decimal digit value of a character, `none` for a non-digit. -/
def charDigit (c : Char) : Option Nat :=
  if 48 ≤ c.toNat ∧ c.toNat ≤ 57 then some (c.toNat - 48) else none

/-- Read a non-empty all-digit character list as a natural number, the
model of string-to-number conversion. -/
def digitsToNat : List Char → Option Nat
  | [] => none
  | cs =>
    cs.foldl
      (fun acc c =>
        match acc, charDigit c with
        | some n, some d => some (n * 10 + d)
        | _, _ => none)
      (some 0)

/-- Parse an ISO `YYYY-MM-DD` string as a calendar date; `none` when the
string is not of that shape or is not a valid date. -/
def parseDate (s : String) : Option Date :=
  match splitOnChar (Char.ofNat 45) s.data with
  | [ys, ms, ds] =>
    match digitsToNat ys, digitsToNat ms, digitsToNat ds with
    | some y, some m, some d =>
      if ys.length = 4 ∧ 1 ≤ m ∧ m ≤ 12 ∧ 1 ≤ d ∧ d ≤ daysInMonth y m
      then some ⟨y, m, d⟩ else none
    | _, _, _ => none
  | _ => none

/-- An entry of the row index: either a parsed timestamp or a raw string
(the pandas fallback when the column cannot be represented as datetimes). -/
inductive IndexVal where
  | date (d : Date)
  | str (s : String)
deriving DecidableEq, Repr

/-- Whether an index entry is a parsed timestamp. -/
def IndexVal.isDate : IndexVal → Bool
  | .date _ => true
  | .str _ => false

/-- The tabular result of a successful load: the name of the index column,
the row index, the remaining column names, and the rows (cell values in
textual form). -/
structure DataFrame where
  indexName : String
  index : List IndexVal
  columns : List String
  rows : List (List String)
deriving DecidableEq, Repr

/-- A filesystem entry: a regular file with textual content, or a
directory. -/
inductive FsEntry where
  | file (content : String)
  | dir
deriving DecidableEq, Repr

/-- The filesystem as a finite map from absolute path strings to entries. -/
abbrev FileSystem := List (String × FsEntry)

/-- Look up a path in the filesystem. -/
def fsLookup (fs : FileSystem) (p : String) : Option FsEntry :=
  fs.lookup p

/-- Model of `os.path.exists`. -/
def osPathExists (fs : FileSystem) (p : String) : Bool :=
  (fsLookup fs p).isSome

/-- Whether a string starts with the path separator. -/
def startsWithSlash (s : String) : Bool :=
  match s.data with
  | [] => false
  | c :: _ => c == Char.ofNat 47

/-- Whether a string ends with the path separator. -/
def endsWithSlash (s : String) : Bool :=
  match s.data.getLast? with
  | some c => c == Char.ofNat 47
  | none => false

/-- Model of the two-argument `os.path.join`: an absolute second
component replaces the first; otherwise a separator is inserted unless
the first component is empty or already ends with one. -/
def osPathJoin (a b : String) : String :=
  if startsWithSlash b then b
  else if a.data.isEmpty || endsWithSlash a then a ++ b
  else a ++ "/" ++ b

/-- Left fold of `osPathJoin` over further components, the model of the
variadic `os.path.join`. -/
def osPathJoinL (a : String) (rest : List String) : String :=
  rest.foldl osPathJoin a

/-- The configured library root, `ROOT_PATH` in the source. -/
def ROOT_PATH : String := "/path/to/shared/drive/MMF1941_FALL_2025/"

/-- `DATA_LIBRARY_PATH = os.path.join(ROOT_PATH, "01_shared_data_library")`. -/
def DATA_LIBRARY_PATH : String := osPathJoin ROOT_PATH "01_shared_data_library"

/-- First candidate: `<library>/<team>/raw_data/daily/<file>`. -/
def dailyPath (team_folder file_name : String) : String :=
  osPathJoinL DATA_LIBRARY_PATH [team_folder, "raw_data", "daily", file_name]

/-- Second candidate: `<library>/<team>/raw_data/quarterly/<file>`. -/
def quarterlyPath (team_folder file_name : String) : String :=
  osPathJoinL DATA_LIBRARY_PATH [team_folder, "raw_data", "quarterly", file_name]

/-- Third candidate: `<library>/<team>/processed_data/<file>`. -/
def processedPath (team_folder file_name : String) : String :=
  osPathJoinL DATA_LIBRARY_PATH [team_folder, "processed_data", file_name]

/-- The `possible_paths` list of the source, in its fixed order. -/
def possible_paths (team_folder file_name : String) : List String :=
  [dailyPath team_folder file_name,
   quarterlyPath team_folder file_name,
   processedPath team_folder file_name]

/-- A filesystem operation performed by the loader: an existence check or
a read (opening the file for parsing). -/
inductive FsOp where
  | check (p : String)
  | read (p : String)
deriving DecidableEq, Repr

/-- Whether an operation is a read. -/
def FsOp.isRead : FsOp → Bool
  | .read _ => true
  | .check _ => false

/-- The path of an existence check, `none` for a read. -/
def FsOp.checkedPath : FsOp → Option String
  | .check p => some p
  | .read _ => none

/-- The scan loop of the source: walk the candidate list in order, break
at the first path that exists.  Returns the selected path (if any) and the
trace of existence checks performed. -/
def scanPaths (fs : FileSystem) : List String → Option String × List FsOp
  | [] => (none, [])
  | p :: rest =>
    if osPathExists fs p then (some p, [FsOp.check p])
    else
      let r := scanPaths fs rest
      (r.1, FsOp.check p :: r.2)

/-- Split file content into lines, skipping blank lines
(`skip_blank_lines = True`, the pandas default). -/
def splitLines (content : String) : List String :=
  ((splitOnChar (Char.ofNat 10) content.data).filter
    (fun l => !l.isEmpty)).map String.mk

/-- Split one line into comma-separated fields. -/
def splitFields (line : String) : List String :=
  (splitOnChar (Char.ofNat 44) line.data).map String.mk

/-- Header fields and data-row fields of CSV content; `none` when the file
has no lines at all (pandas raises EmptyDataError there). -/
def csvCells (content : String) : Option (List String × List (List String)) :=
  match splitLines content with
  | [] => none
  | h :: t => some (splitFields h, t.map splitFields)

/-- The raw values of the index column of CSV content, in file order. -/
def indexRaws (content index_col : String) : List String :=
  match csvCells content with
  | none => []
  | some (cols, rows) => rows.map (fun r => r.getD (cols.indexOf index_col) "")

/-- Build the row index from the raw values: parsed timestamps when every
value parses, otherwise the raw strings unaltered (the documented pandas
`parse_dates` fallback). -/
def buildIndex (raws : List String) : List IndexVal :=
  if raws.all (fun s => (parseDate s).isSome)
  then raws.map (fun s =>
    match parseDate s with
    | some d => IndexVal.date d
    | none => IndexVal.str s)
  else raws.map IndexVal.str

/-- Model of `pandas.read_csv(content, index_col = index_col,
parse_dates = True)`: fails when the file is empty, when the named index
column is absent from the header, or when a data row does not have as many
fields as the header; otherwise produces the table with the named column
as row index. -/
def read_csv (content index_col : String) : Except String DataFrame :=
  match csvCells content with
  | none => Except.error "EmptyDataError: No columns to parse from file"
  | some (cols, rows) =>
    if cols.contains index_col then
      if rows.all (fun r => r.length = cols.length) then
        let i := cols.indexOf index_col
        Except.ok
          ⟨index_col,
           buildIndex (rows.map (fun r => r.getD i "")),
           cols.eraseIdx i,
           rows.map (fun r => r.eraseIdx i)⟩
      else Except.error "ParserError: error tokenizing data"
    else Except.error ("ValueError: Index " ++ index_col ++ " invalid")

/-- Open the selected path and parse it: a directory or a vanished file is
a read error, a regular file is handed to `read_csv`. -/
def readParse (fs : FileSystem) (p date_col : String) : Except String DataFrame :=
  match fsLookup fs p with
  | some (FsEntry.file c) => read_csv c date_col
  | some FsEntry.dir => Except.error "IsADirectoryError"
  | none => Except.error "FileNotFoundError"

/-- Collapse the parse outcome to the return channel of the source: a
table on success, the failure indicator (`None`) on any error. -/
def exceptToOption (e : Except String DataFrame) : Option DataFrame :=
  match e with
  | Except.ok df => some df
  | Except.error _ => none

/-- The default of the `date_col` parameter in the source. -/
def default_date_col : String := "Date"

/-- One run of the loader: the returned value, the diagnostic lines
printed, and the trace of filesystem operations. -/
structure LoadRun where
  result : Option DataFrame
  logs : List String
  ops : List FsOp
deriving DecidableEq, Repr

/-- The loader `load_data_from_library(team_folder, file_name, date_col)`:
build the three candidate paths, take the first that exists; if none
exists print a diagnostic naming the file and the team folder and return
the failure indicator; otherwise parse the selected file, returning the
table on success and the failure indicator on any error, never raising to
the caller. -/
def load_data_from_library (fs : FileSystem)
    (team_folder file_name date_col : String) : LoadRun :=
  let scan := scanPaths fs (possible_paths team_folder file_name)
  match scan.1 with
  | none =>
    ⟨none,
     ["ERROR: File " ++ file_name ++
      " not found in standard directories for team " ++ team_folder ++ "."],
     scan.2⟩
  | some p =>
    match readParse fs p date_col with
    | Except.ok df =>
      ⟨some df,
       ["Loading data from: " ++ p, "File loaded successfully."],
       scan.2 ++ [FsOp.read p]⟩
    | Except.error e =>
      ⟨none,
       ["Loading data from: " ++ p,
        "An error occurred while loading the file: " ++ e],
       scan.2 ++ [FsOp.read p]⟩

/-- Filesystem with all three candidates present, each with distinct
content, for the scan-order scenarios. -/
def fsAllThree : FileSystem :=
  [(dailyPath "teamX" "f.csv", FsEntry.file "Date,Close\n2024-01-01,100\n2024-01-02,101\n"),
   (quarterlyPath "teamX" "f.csv", FsEntry.file "Date,Close\n2024-03-31,7\n"),
   (processedPath "teamX" "f.csv", FsEntry.file "Date,Close\n2024-06-30,8\n")]

/-- Filesystem with only the quarterly candidate present. -/
def fsQuarterlyOnly : FileSystem :=
  [(quarterlyPath "teamX" "f.csv", FsEntry.file "Date,Close\n2024-03-31,7\n")]

/-- Filesystem with only the processed candidate present. -/
def fsProcessedOnly : FileSystem :=
  [(processedPath "teamX" "f.csv", FsEntry.file "Date,Close\n2024-06-30,8\n")]

/-- Filesystem whose daily candidate is a malformed CSV (a data row with
more fields than the header). -/
def fsMalformed : FileSystem :=
  [(dailyPath "teamX" "f.csv", FsEntry.file "Date,Close\n1,2,3\n")]

/-- Filesystem whose daily candidate lacks the default date column. -/
def fsNoDateCol : FileSystem :=
  [(dailyPath "teamX" "f.csv", FsEntry.file "Dt,Close\n2024-01-01,5\n")]

/-- Filesystem whose daily candidate has an unparseable date value. -/
def fsBadDate : FileSystem :=
  [(dailyPath "teamY" "g.csv", FsEntry.file "Date,Close\nnotadate,5\n")]

/-- Filesystem whose daily candidate is a directory while the quarterly
candidate is a well-formed CSV. -/
def fsDailyDir : FileSystem :=
  [(dailyPath "teamZ" "h.csv", FsEntry.dir),
   (quarterlyPath "teamZ" "h.csv", FsEntry.file "Date,Close\n2024-01-01,7\n")]

/-- A filesystem extensionally equal to `fsAllThree` but with a shadowed
duplicate entry, for the determinism witness. -/
def fsAllThreeDup : FileSystem :=
  fsAllThree ++ [(dailyPath "teamX" "f.csv", FsEntry.file "shadowed")]

/-- Filesystem with only the daily candidate present, holding the
two-row example CSV. -/
def fsDailyOnly : FileSystem :=
  [(dailyPath "teamX" "f.csv",
    FsEntry.file "Date,Close\n2024-01-01,100\n2024-01-02,101\n")]

/-! ### Characterisation lemmas for the scan loop and the loader -/

theorem scanPaths_fst (fs : FileSystem) (ps : List String) :
    (scanPaths fs ps).1 = ps.find? (fun p => osPathExists fs p) := by
  induction ps with
  | nil => rfl
  | cons p rest ih =>
    by_cases h : osPathExists fs p = true
    · simp [scanPaths, h, List.find?]
    · simp only [Bool.not_eq_true] at h
      simp [scanPaths, h, List.find?, ih]

theorem scanPaths_snd (fs : FileSystem) (ps : List String) :
    (scanPaths fs ps).2 =
      match ps.find? (fun p => osPathExists fs p) with
      | none => ps.map FsOp.check
      | some p =>
          (ps.takeWhile (fun q => !osPathExists fs q)).map FsOp.check
            ++ [FsOp.check p] := by
  induction ps with
  | nil => rfl
  | cons p rest ih =>
    by_cases h : osPathExists fs p = true
    · simp [scanPaths, h, List.find?, List.takeWhile]
    · simp only [Bool.not_eq_true] at h
      simp only [scanPaths, h, List.find?_cons, List.takeWhile, ih,
        Bool.false_eq_true, if_false, List.map_cons]
      cases hf : rest.find? (fun q => osPathExists fs q) <;> simp [h]

theorem load_result_eq (fs : FileSystem) (t f dc : String) :
    (load_data_from_library fs t f dc).result =
      match (possible_paths t f).find? (fun q => osPathExists fs q) with
      | none => none
      | some p => exceptToOption (readParse fs p dc) := by
  unfold load_data_from_library
  rw [show (possible_paths t f).find? (fun q => osPathExists fs q)
        = (scanPaths fs (possible_paths t f)).1 from (scanPaths_fst fs _).symm]
  cases hs : (scanPaths fs (possible_paths t f)).1 with
  | none => simp [hs]
  | some p =>
    cases hr : readParse fs p dc <;> simp [hs, hr, exceptToOption]

theorem load_logs_eq (fs : FileSystem) (t f dc : String) :
    (load_data_from_library fs t f dc).logs =
      match (possible_paths t f).find? (fun q => osPathExists fs q) with
      | none =>
          ["ERROR: File " ++ f ++
           " not found in standard directories for team " ++ t ++ "."]
      | some p =>
          ("Loading data from: " ++ p) ::
            (match readParse fs p dc with
             | Except.ok _ => ["File loaded successfully."]
             | Except.error e =>
                 ["An error occurred while loading the file: " ++ e]) := by
  unfold load_data_from_library
  rw [show (possible_paths t f).find? (fun q => osPathExists fs q)
        = (scanPaths fs (possible_paths t f)).1 from (scanPaths_fst fs _).symm]
  cases hs : (scanPaths fs (possible_paths t f)).1 with
  | none => simp [hs]
  | some p =>
    cases hr : readParse fs p dc <;> simp [hs, hr]

theorem load_ops_eq (fs : FileSystem) (t f dc : String) :
    (load_data_from_library fs t f dc).ops =
      match (scanPaths fs (possible_paths t f)).1 with
      | none => (scanPaths fs (possible_paths t f)).2
      | some p => (scanPaths fs (possible_paths t f)).2 ++ [FsOp.read p] := by
  unfold load_data_from_library
  cases hs : (scanPaths fs (possible_paths t f)).1 with
  | none => simp [hs]
  | some p =>
    cases hr : readParse fs p dc <;> simp [hs, hr]

/-! ### Claim theorems -/

/-- C1: whenever the daily candidate path exists, the scan selects it in
preference to quarterly or processed files of the same name, even when
several candidates exist at once, and the loader loads from it: the
result is exactly the parse outcome of the daily path and the first
diagnostic line names the daily path. -/
theorem daily_candidate_wins (fs : FileSystem) (t f dc : String)
    (h : osPathExists fs (dailyPath t f) = true) :
    (possible_paths t f).find? (fun q => osPathExists fs q)
      = some (dailyPath t f) ∧
    (load_data_from_library fs t f dc).result
      = exceptToOption (readParse fs (dailyPath t f) dc) ∧
    (load_data_from_library fs t f dc).logs.head?
      = some ("Loading data from: " ++ dailyPath t f) := by
  have hf : (possible_paths t f).find? (fun q => osPathExists fs q)
      = some (dailyPath t f) := by
    simp [possible_paths, List.find?, h]
  refine ⟨hf, ?_, ?_⟩
  · rw [load_result_eq, hf]
  · rw [load_logs_eq, hf]
    cases hr : readParse fs (dailyPath t f) dc <;> simp

/-- C1 witness: on a filesystem where all three candidates exist, the
daily one is selected and loaded. -/
theorem daily_candidate_wins_witness :
    osPathExists fsAllThree (dailyPath "teamX" "f.csv") = true ∧
    (possible_paths "teamX" "f.csv").find? (fun q => osPathExists fsAllThree q)
      = some (dailyPath "teamX" "f.csv") ∧
    (load_data_from_library fsAllThree "teamX" "f.csv" "Date").result
      = exceptToOption (readParse fsAllThree (dailyPath "teamX" "f.csv") "Date") :=
  ⟨by decide,
   (daily_candidate_wins fsAllThree "teamX" "f.csv" "Date" (by decide)).1,
   (daily_candidate_wins fsAllThree "teamX" "f.csv" "Date" (by decide)).2.1⟩

/-- C2: when none of the three candidate paths exists, the loader returns
the failure indicator (no table; the embedding is a total function, so
nothing is raised) and emits exactly one diagnostic naming the file and
the team folder, after checking all three candidates. -/
theorem none_found_failure (fs : FileSystem) (t f dc : String)
    (hd : osPathExists fs (dailyPath t f) = false)
    (hq : osPathExists fs (quarterlyPath t f) = false)
    (hp : osPathExists fs (processedPath t f) = false) :
    load_data_from_library fs t f dc =
      ⟨none,
       ["ERROR: File " ++ f ++ " not found in standard directories for team "
          ++ t ++ "."],
       [FsOp.check (dailyPath t f), FsOp.check (quarterlyPath t f),
        FsOp.check (processedPath t f)]⟩ := by
  unfold load_data_from_library
  simp [possible_paths, scanPaths, hd, hq, hp]

/-- C2 witness: on the empty filesystem the loader fails with the
diagnostic naming file and team. -/
theorem none_found_failure_witness :
    load_data_from_library [] "teamX" "f.csv" "Date" =
      ⟨none,
       ["ERROR: File " ++ "f.csv" ++ " not found in standard directories for team "
          ++ "teamX" ++ "."],
       [FsOp.check (dailyPath "teamX" "f.csv"),
        FsOp.check (quarterlyPath "teamX" "f.csv"),
        FsOp.check (processedPath "teamX" "f.csv")]⟩ :=
  none_found_failure [] "teamX" "f.csv" "Date" (by rfl) (by rfl) (by rfl)

/-- C3: any parse error on the resolved file is swallowed: when a
candidate is selected and parsing it fails, the loader returns the same
failure indicator as the not-found case (so the return channel does not
distinguish the two failure kinds; the embedding is total, so no
exception reaches the caller) and the diagnostic contains the underlying
error message. -/
theorem parse_error_swallowed (fs : FileSystem) (t f dc p e : String)
    (hfind : (possible_paths t f).find? (fun q => osPathExists fs q) = some p)
    (herr : readParse fs p dc = Except.error e) :
    (load_data_from_library fs t f dc).result = none ∧
    (load_data_from_library fs t f dc).result
      = (load_data_from_library [] t f dc).result ∧
    (load_data_from_library fs t f dc).logs =
      ["Loading data from: " ++ p,
       "An error occurred while loading the file: " ++ e] := by
  have h1 : (load_data_from_library fs t f dc).result = none := by
    rw [load_result_eq, hfind]
    simp [herr, exceptToOption]
  have h0 : (load_data_from_library [] t f dc).result = none := by
    rw [load_result_eq]
    simp [possible_paths, osPathExists, fsLookup, List.find?, List.lookup]
  refine ⟨h1, h1.trans h0.symm, ?_⟩
  rw [load_logs_eq, hfind]
  simp [herr]

/-- C3 witness: a malformed daily file (a row with more fields than the
header) is swallowed into the failure indicator with a diagnostic. -/
theorem parse_error_swallowed_witness :
    (load_data_from_library fsMalformed "teamX" "f.csv" "Date").result = none ∧
    (load_data_from_library fsMalformed "teamX" "f.csv" "Date").result
      = (load_data_from_library [] "teamX" "f.csv" "Date").result ∧
    (load_data_from_library fsMalformed "teamX" "f.csv" "Date").logs =
      ["Loading data from: " ++ dailyPath "teamX" "f.csv",
       "An error occurred while loading the file: "
         ++ "ParserError: error tokenizing data"] :=
  parse_error_swallowed fsMalformed "teamX" "f.csv" "Date"
    (dailyPath "teamX" "f.csv") "ParserError: error tokenizing data"
    (by decide) (by rfl)

/-- C4: when the resolved candidate is a regular file whose header does
not contain the requested date column, the loader returns the failure
indicator instead of raising. -/
theorem missing_date_column_failure (fs : FileSystem)
    (t f dc p c hdr : String) (rest : List String)
    (hfind : (possible_paths t f).find? (fun q => osPathExists fs q) = some p)
    (hfile : fsLookup fs p = some (FsEntry.file c))
    (hsplit : splitLines c = hdr :: rest)
    (hnocol : (splitFields hdr).contains dc = false) :
    (load_data_from_library fs t f dc).result = none := by
  have hcsv : read_csv c dc
      = Except.error ("ValueError: Index " ++ dc ++ " invalid") := by
    have hmem : ¬ dc ∈ splitFields hdr := by
      intro hm
      have hc : (splitFields hdr).contains dc = true := List.elem_eq_true_of_mem hm
      rw [hnocol] at hc
      exact Bool.false_ne_true hc
    unfold read_csv csvCells
    rw [hsplit]
    simp [hmem]
  rw [load_result_eq, hfind]
  simp [readParse, hfile, hcsv, exceptToOption]

/-- C4 witness: a daily file whose header is Dt,Close fails to load under
the default date column. -/
theorem missing_date_column_failure_witness :
    (load_data_from_library fsNoDateCol "teamX" "f.csv" "Date").result = none :=
  missing_date_column_failure fsNoDateCol "teamX" "f.csv" "Date"
    (dailyPath "teamX" "f.csv") "Dt,Close\n2024-01-01,5\n" "Dt,Close"
    ["2024-01-01,5"] (by decide) (by decide) (by decide) (by decide)

theorem filter_isRead_map_check (l : List String) :
    (l.map FsOp.check).filter FsOp.isRead = [] := by
  induction l with
  | nil => rfl
  | cons a l ih => simp [List.filter_cons, FsOp.isRead, ih]

theorem filterMap_checkedPath_map_check (l : List String) :
    (l.map FsOp.check).filterMap FsOp.checkedPath = l := by
  induction l with
  | nil => rfl
  | cons a l ih => simp [List.filterMap_cons, FsOp.checkedPath, ih]

theorem filterMap_checkedPath_comp_check (l : List String) :
    List.filterMap (FsOp.checkedPath ∘ FsOp.check) l = l := by
  induction l with
  | nil => rfl
  | cons a l ih => simp [List.filterMap_cons, Function.comp, FsOp.checkedPath, ih]

/-- C5: per call, at most one candidate is ever read, and the existence
checks performed are exactly the candidates up to and including the first
existing one — the remaining candidates are not checked even if they also
exist; when none exists, exactly the three candidates are checked. -/
theorem at_most_one_candidate_read (fs : FileSystem) (t f dc : String) :
    ((load_data_from_library fs t f dc).ops.filter FsOp.isRead).length ≤ 1 ∧
    (load_data_from_library fs t f dc).ops.filterMap FsOp.checkedPath =
      (match (possible_paths t f).find? (fun q => osPathExists fs q) with
       | none => possible_paths t f
       | some p =>
           (possible_paths t f).takeWhile (fun q => !osPathExists fs q)
             ++ [p]) := by
  rw [load_ops_eq, scanPaths_fst, scanPaths_snd]
  cases hf : (possible_paths t f).find? (fun q => osPathExists fs q) with
  | none =>
    simp [filter_isRead_map_check, filterMap_checkedPath_map_check,
      filterMap_checkedPath_comp_check]
  | some p =>
    simp [List.filter_append, List.filterMap_append, filter_isRead_map_check,
      filterMap_checkedPath_map_check, filterMap_checkedPath_comp_check,
      List.filter_cons, List.filterMap_cons, FsOp.isRead, FsOp.checkedPath]

/-- C6: when the daily candidate is absent and the quarterly one exists,
the quarterly file is selected and loaded; when only the processed
candidate exists, the processed file is selected and loaded. -/
theorem fallback_selection (fs : FileSystem) (t f dc : String) :
    ((osPathExists fs (dailyPath t f) = false) →
     (osPathExists fs (quarterlyPath t f) = true) →
      (possible_paths t f).find? (fun q => osPathExists fs q)
          = some (quarterlyPath t f) ∧
      (load_data_from_library fs t f dc).result
          = exceptToOption (readParse fs (quarterlyPath t f) dc)) ∧
    ((osPathExists fs (dailyPath t f) = false) →
     (osPathExists fs (quarterlyPath t f) = false) →
     (osPathExists fs (processedPath t f) = true) →
      (possible_paths t f).find? (fun q => osPathExists fs q)
          = some (processedPath t f) ∧
      (load_data_from_library fs t f dc).result
          = exceptToOption (readParse fs (processedPath t f) dc)) := by
  constructor
  · intro hd hq
    have hf : (possible_paths t f).find? (fun q => osPathExists fs q)
        = some (quarterlyPath t f) := by
      simp [possible_paths, List.find?, hd, hq]
    exact ⟨hf, by rw [load_result_eq, hf]⟩
  · intro hd hq hp
    have hf : (possible_paths t f).find? (fun q => osPathExists fs q)
        = some (processedPath t f) := by
      simp [possible_paths, List.find?, hd, hq, hp]
    exact ⟨hf, by rw [load_result_eq, hf]⟩

/-- C6 witness: with only the quarterly candidate present the quarterly
file is loaded, and with only the processed candidate present the
processed file is loaded. -/
theorem fallback_selection_witness :
    ((load_data_from_library fsQuarterlyOnly "teamX" "f.csv" "Date").result
       = exceptToOption
           (readParse fsQuarterlyOnly (quarterlyPath "teamX" "f.csv") "Date")) ∧
    ((load_data_from_library fsProcessedOnly "teamX" "f.csv" "Date").result
       = exceptToOption
           (readParse fsProcessedOnly (processedPath "teamX" "f.csv") "Date")) :=
  ⟨((fallback_selection fsQuarterlyOnly "teamX" "f.csv" "Date").1
      (by decide) (by decide)).2,
   ((fallback_selection fsProcessedOnly "teamX" "f.csv" "Date").2
      (by decide) (by decide) (by decide)).2⟩

/-- C7: the two-row example CSV at the daily path loads into a table
indexed by the two parsed dates, with the single column Close holding the
values 100 and 101 (cell values are kept in textual form in the model). -/
theorem concrete_two_row_load :
    (load_data_from_library fsDailyOnly "teamX" "f.csv" default_date_col).result
      = some ⟨"Date",
              [IndexVal.date ⟨2024, 1, 1⟩, IndexVal.date ⟨2024, 1, 2⟩],
              ["Close"], [["100"], ["101"]]⟩ := by
  decide

/-- C8: the loader is a deterministic function of its arguments and the
observed filesystem: any two calls with identical arguments against
extensionally equal filesystems produce structurally equal outcomes
(result table, diagnostics, and operation trace all coincide). -/
theorem load_deterministic (fs1 fs2 : FileSystem) (t f dc : String)
    (h : ∀ p, fsLookup fs1 p = fsLookup fs2 p) :
    load_data_from_library fs1 t f dc = load_data_from_library fs2 t f dc := by
  have he : ∀ p, osPathExists fs1 p = osPathExists fs2 p := by
    intro p
    unfold osPathExists
    rw [h]
  have hscan : ∀ ps : List String, scanPaths fs1 ps = scanPaths fs2 ps := by
    intro ps
    induction ps with
    | nil => rfl
    | cons p rest ih => simp [scanPaths, he p, ih]
  have hrp : ∀ p, readParse fs1 p dc = readParse fs2 p dc := by
    intro p
    unfold readParse
    rw [h]
  unfold load_data_from_library
  rw [hscan]
  simp only [hrp]

/-- C8 witness: a run against the example filesystem and a run against an
extensionally equal filesystem with a shadowed duplicate entry coincide. -/
theorem load_deterministic_witness :
    load_data_from_library fsAllThree "teamX" "f.csv" "Date"
      = load_data_from_library fsAllThreeDup "teamX" "f.csv" "Date" :=
  load_deterministic fsAllThree fsAllThreeDup "teamX" "f.csv" "Date" (by
    intro p
    show (fsAllThree.lookup p) = (fsAllThreeDup.lookup p)
    simp only [fsAllThree, fsAllThreeDup, List.cons_append, List.nil_append,
      List.lookup]
    cases h1 : p == dailyPath "teamX" "f.csv" <;>
      cases h2 : p == quarterlyPath "teamX" "f.csv" <;>
        cases h3 : p == processedPath "teamX" "f.csv" <;>
          simp [h1, h2, h3])

theorem read_csv_ok_index (c dc : String) (df : DataFrame)
    (h : read_csv c dc = Except.ok df) :
    df.index = buildIndex (indexRaws c dc) := by
  unfold read_csv at h
  unfold indexRaws
  cases hc : csvCells c with
  | none =>
    rw [hc] at h
    exact absurd h (by simp)
  | some pr =>
    obtain ⟨cols, rows⟩ := pr
    rw [hc] at h
    simp only [] at h
    simp only []
    by_cases h1 : cols.contains dc = true
    · rw [if_pos h1] at h
      by_cases h2 : rows.all (fun r => r.length = cols.length) = true
      · rw [if_pos h2] at h
        cases h
        rfl
      · rw [if_neg h2] at h
        exact absurd h (by simp)
    · rw [if_neg h1] at h
      exact absurd h (by simp)

/-- C9 counterexample: a daily file whose date column holds the
unparseable value notadate still loads successfully, so it is not true
that every successful load has all date-column values parseable; the
resulting index entry is the raw string, not a timestamp. -/
theorem unparseable_date_still_loads :
    (load_data_from_library fsBadDate "teamY" "g.csv" "Date").result =
      some ⟨"Date", [IndexVal.str "notadate"], ["Close"], [["5"]]⟩ ∧
    parseDate "notadate" = none ∧
    IndexVal.isDate (IndexVal.str "notadate") = false := by
  refine ⟨by decide, by decide, by decide⟩

/-- C9 amended: for every successful load of a regular file, the row
index is determined by the raw date-column values: when every raw value
parses as a timestamp the index is exactly those parsed timestamps, and
when some raw value does not parse the load may still succeed but the
index is the raw strings unaltered and is not a timestamp index. -/
theorem index_timestamps_iff_parseable (fs : FileSystem)
    (t f dc p c : String) (df : DataFrame)
    (hfind : (possible_paths t f).find? (fun q => osPathExists fs q) = some p)
    (hfile : fsLookup fs p = some (FsEntry.file c))
    (hok : (load_data_from_library fs t f dc).result = some df) :
    ((indexRaws c dc).all (fun s => (parseDate s).isSome) = true →
       df.index = (indexRaws c dc).map (fun s =>
         match parseDate s with
         | some d => IndexVal.date d
         | none => IndexVal.str s)) ∧
    ((indexRaws c dc).all (fun s => (parseDate s).isSome) = false →
       df.index = (indexRaws c dc).map IndexVal.str ∧
       df.index.all IndexVal.isDate = false) := by
  have hcsv : read_csv c dc = Except.ok df := by
    rw [load_result_eq, hfind] at hok
    simp only [] at hok
    unfold readParse at hok
    rw [hfile] at hok
    simp only [] at hok
    cases hr : read_csv c dc with
    | error e =>
      rw [hr] at hok
      simp [exceptToOption] at hok
    | ok df2 =>
      rw [hr] at hok
      simp only [exceptToOption, Option.some.injEq] at hok
      rw [hok]
  have hidx := read_csv_ok_index c dc df hcsv
  constructor
  · intro hall
    rw [hidx]
    simp [buildIndex, hall]
  · intro hall
    have hidx2 : df.index = (indexRaws c dc).map IndexVal.str := by
      rw [hidx]
      simp [buildIndex, hall]
    refine ⟨hidx2, ?_⟩
    cases hraws : indexRaws c dc with
    | nil =>
      rw [hraws] at hall
      simp at hall
    | cons a l =>
      rw [hidx2, hraws]
      simp [IndexVal.isDate]

/-- C9 amended witness: on the notadate file the raw values do not all
parse and the successful load's index is the raw strings with no
timestamp entry. -/
theorem index_timestamps_iff_parseable_witness :
    (⟨"Date", [IndexVal.str "notadate"], ["Close"], [["5"]]⟩ : DataFrame).index
        = (indexRaws "Date,Close\nnotadate,5\n" "Date").map IndexVal.str ∧
    (⟨"Date", [IndexVal.str "notadate"], ["Close"], [["5"]]⟩
        : DataFrame).index.all IndexVal.isDate = false :=
  (index_timestamps_iff_parseable fsBadDate "teamY" "g.csv" "Date"
      (dailyPath "teamY" "g.csv") "Date,Close\nnotadate,5\n"
      ⟨"Date", [IndexVal.str "notadate"], ["Close"], [["5"]]⟩
      (by decide) (by decide) (by decide)).2 (by decide)

/-- C10: when the first existing candidate fails to parse (for instance
because it is a directory or malformed), the loader returns the failure
indicator and its filesystem trace stops at that candidate: the existence
checks end at the selected path and the only read is of that path, so the
later candidates are never attempted even if one of them exists and would
parse successfully. -/
theorem first_existing_candidate_decides (fs : FileSystem)
    (t f dc p e : String)
    (hfind : (possible_paths t f).find? (fun q => osPathExists fs q) = some p)
    (herr : readParse fs p dc = Except.error e) :
    (load_data_from_library fs t f dc).result = none ∧
    (load_data_from_library fs t f dc).ops =
      ((possible_paths t f).takeWhile (fun q => !osPathExists fs q)).map
          FsOp.check
        ++ [FsOp.check p, FsOp.read p] := by
  refine ⟨?_, ?_⟩
  · rw [load_result_eq, hfind]
    simp [herr, exceptToOption]
  · rw [load_ops_eq, scanPaths_fst, hfind, scanPaths_snd, hfind]
    simp

/-- C10 witness: with the daily candidate a directory and the quarterly
candidate a well-formed CSV, the loader fails, reads only the daily path,
and never checks the quarterly path although it exists and parses. -/
theorem first_existing_candidate_decides_witness :
    (load_data_from_library fsDailyDir "teamZ" "h.csv" "Date").result = none ∧
    (load_data_from_library fsDailyDir "teamZ" "h.csv" "Date").ops =
      [FsOp.check (dailyPath "teamZ" "h.csv"),
       FsOp.read (dailyPath "teamZ" "h.csv")] ∧
    osPathExists fsDailyDir (quarterlyPath "teamZ" "h.csv") = true ∧
    (exceptToOption
      (readParse fsDailyDir (quarterlyPath "teamZ" "h.csv") "Date")).isSome
        = true := by
  have h := first_existing_candidate_decides fsDailyDir "teamZ" "h.csv" "Date"
      (dailyPath "teamZ" "h.csv") "IsADirectoryError" (by decide) (by rfl)
  refine ⟨h.1, ?_, by decide, by decide⟩
  rw [h.2]
  decide
